import Mathlib

/- Shallow embedding of the authentication / resource-ownership subsystem of the
AI-Interview-Coach backend (files models.py, auth.py, main.py,
services/user_service.py, services/storage_service.py).

MongoDB collections are modelled as Lean lists kept in insertion (natural)
order; Beanie `find_one` / `find` become `List.find?` / `List.filter`,
`insert` appends, `save` replaces the document carrying the same id,
`delete` removes the documents carrying the given id.  `datetime.utcnow()`
is an abstract tick `DB.now`; object ids are natural numbers drawn from
`DB.nextId`.  Python exceptions are modelled with `Except`; persistence
failures that the code may encounter are modelled by explicit boolean
oracles (`insertFails`, `backendFails`, `metaDeleteFails`). -/

/-- User document, from `UserDB` in models.py (BeanieBaseUser fields plus the
extra profile fields). -/
structure UserRec where
  id : Nat
  email : String
  hashed_password : String
  is_active : Bool
  is_verified : Bool
  full_name : Option String
  google_id : Option String
  avatar_url : Option String
  role : String
  created_at : Nat
  updated_at : Nat
deriving DecidableEq, Repr

/-- Interview-session document, from `UserSession` in models.py. -/
structure SessionRec where
  id : Nat
  user_id : Nat
  session_name : String
  session_type : String
  status : String
  created_at : Nat
  updated_at : Nat
deriving DecidableEq, Repr

/-- Media-file document, from `MediaFile` in models.py. -/
structure MediaFileRec where
  id : Nat
  user_id : Nat
  session_id : Option Nat
  file_type : String
  file_path : String
  file_size : Option Nat
  mime_type : Option String
  created_at : Nat
  processing_status : String
deriving DecidableEq, Repr

/-- Conversation document, from `LLMConversation` in models.py (only the
fields the ownership guard touches). -/
structure ConversationRec where
  id : Nat
  user_id : Nat
  session_id : Option Nat
  conversation_type : String
  created_at : Nat
deriving DecidableEq, Repr

/-- Preferences document, from `UserPreferences` in models.py
(`preferences_data`, an untyped dict, is omitted). -/
structure PreferencesRec where
  id : Nat
  user_id : Nat
  preferred_duration : Nat
  difficulty_level : String
  interview_types : List String
  email_notifications : Bool
  reminder_notifications : Bool
  data_retention_days : Nat
  allow_data_analysis : Bool
  created_at : Nat
  updated_at : Nat
deriving DecidableEq, Repr

/-- Default `UserPreferences` document built from the field defaults in
models.py. -/
def defaultPrefs (id user_id now : Nat) : PreferencesRec :=
  { id := id, user_id := user_id, preferred_duration := 30,
    difficulty_level := "medium",
    interview_types := ["technical", "behavioral"],
    email_notifications := true, reminder_notifications := true,
    data_retention_days := 30, allow_data_analysis := true,
    created_at := now, updated_at := now }

/-- The persistent state: the five MongoDB collections, the set of blobs the
storage backend currently holds, a fresh-id source and the current clock. -/
structure DB where
  users : List UserRec
  sessions : List SessionRec
  mediaFiles : List MediaFileRec
  conversations : List ConversationRec
  preferences : List PreferencesRec
  blobs : List String
  nextId : Nat
  now : Nat
deriving DecidableEq, Repr

/-- HTTP-level failures raised by the endpoints (`HTTPException`). -/
inductive HttpError where
  | notFound (detail : String)
  | badRequest (detail : String)
  | serverError (detail : String)
deriving DecidableEq, Repr

/-- The empty database. -/
def emptyDB : DB :=
  { users := [], sessions := [], mediaFiles := [], conversations := [],
    preferences := [], blobs := [], nextId := 0, now := 0 }

/-- `UserService.user_owns_resource` (services/user_service.py): a `find_one`
on the collection selected by `resource_type`, filtering on both the resource
id and the owning user id; unknown kinds yield `false`. -/
def user_owns_resource (db : DB) (user_id resource_id : Nat)
    (resource_type : String) : Bool :=
  if resource_type = "session" then
    (db.sessions.find? (fun s => decide (s.id = resource_id ∧ s.user_id = user_id))).isSome
  else if resource_type = "media" then
    (db.mediaFiles.find? (fun f => decide (f.id = resource_id ∧ f.user_id = user_id))).isSome
  else if resource_type = "conversation" then
    (db.conversations.find? (fun c => decide (c.id = resource_id ∧ c.user_id = user_id))).isSome
  else false

/-- `UserService.get_user_sessions` (services/user_service.py): a `find` on
`user_id` with no sort stage; documents come back in natural order. -/
def get_user_sessions_svc (db : DB) (user_id : Nat) : List SessionRec :=
  db.sessions.filter (fun s => decide (s.user_id = user_id))

/-- `UserService.get_session_by_id` (services/user_service.py). -/
def get_session_by_id (db : DB) (session_id : Nat) : Option SessionRec :=
  db.sessions.find? (fun s => decide (s.id = session_id))

/-- `UserManager.create_user_preferences` (auth.py): creates default
preferences unless a record already exists; any exception is logged and then
re-raised.  `insertFails` models the persistence layer raising on the
insert. -/
def create_user_preferences (insertFails : Bool) (db : DB) (user_id : Nat) :
    Except String DB :=
  match db.preferences.find? (fun p => decide (p.user_id = user_id)) with
  | some _ => .ok db
  | none =>
      if insertFails then .error "preferences insert failed"
      else .ok { db with
        preferences := db.preferences ++ [defaultPrefs db.nextId user_id db.now],
        nextId := db.nextId + 1 }

/-- `UserManager.on_after_register` (auth.py): best-effort preferences
creation; the surrounding try/except swallows every exception so the
registration hook itself never raises. -/
def on_after_register (insertFails : Bool) (db : DB) (user_id : Nat) : DB :=
  match create_user_preferences insertFails db user_id with
  | .ok db1 => db1
  | .error _ => db

/-- OAuth profile payload handed to `oauth_callback` via kwargs
(`name`, `picture`). -/
structure Profile where
  name : Option String
  picture : Option String
deriving DecidableEq, Repr

/-- The mutation the email-match branch of `oauth_callback` (auth.py) applies
before `user.save()`: google id, avatar, name and timestamp are overwritten;
no other field (in particular not `is_verified`) is touched. -/
def linkGoogle (u : UserRec) (account_id : String) (p : Profile) (now : Nat) :
    UserRec :=
  { u with google_id := some account_id, avatar_url := p.picture,
           full_name := p.name, updated_at := now }

/-- The fresh user document the create branch of `oauth_callback` (auth.py)
inserts. -/
def oauthNewUser (db : DB) (account_id account_email : String) (p : Profile) :
    UserRec :=
  { id := db.nextId, email := account_email, hashed_password := "",
    is_active := true, is_verified := true, full_name := p.name,
    google_id := some account_id, avatar_url := p.picture,
    role := "interviewee", created_at := db.now, updated_at := db.now }

/-- `UserManager.oauth_callback` (auth.py): only the "google" provider is
handled (any other provider falls through and returns `None`).  Three-way
resolution: find by google id, else find by email and link via `save`, else
insert a fresh verified user and create its preferences (this last call may
raise, and nothing catches it here).  The returned `Option Nat` is the id of
the returned user object. -/
def oauth_callback (insertFails : Bool) (db : DB)
    (oauth_name account_id account_email : String) (p : Profile) :
    Except String (DB × Option Nat) :=
  if oauth_name = "google" then
    match db.users.find? (fun u => decide (u.google_id = some account_id)) with
    | some user => .ok (db, some user.id)
    | none =>
      match db.users.find? (fun u => decide (u.email = account_email)) with
      | some user =>
          .ok ({ db with users := db.users.map (fun v =>
                   if v.id = user.id then linkGoogle user account_id p db.now else v) },
               some user.id)
      | none =>
          let nu := oauthNewUser db account_id account_email p
          let db1 := { db with users := db.users ++ [nu], nextId := db.nextId + 1 }
          match create_user_preferences insertFails db1 nu.id with
          | .ok db2 => .ok (db2, some nu.id)
          | .error e => .error e
  else .ok (db, none)

/-- ASCII lowercasing of one character. -/
def lowerChar (c : Char) : Char :=
  if 'A' ≤ c ∧ c ≤ 'Z' then Char.ofNat (c.toNat + 32) else c

/-- Whitespace test used by the trim helper. -/
def isSpaceChar (c : Char) : Bool :=
  c = ' ' ∨ c = '\t' ∨ c = '\n' ∨ c = '\r'

/-- Trim of a character list (both ends). -/
def trimChars (l : List Char) : List Char :=
  ((l.dropWhile isSpaceChar).reverse.dropWhile isSpaceChar).reverse

/-- The normalization the specification describes for emails: lowercase and
trim.  Used to state the spec's premise; the code itself never applies it. -/
def specNormalizeEmail (s : String) : String :=
  String.mk ((trimChars s.data).map lowerChar)

/-- The only normalization actually applied to an incoming email before it
reaches `UserManager.create`: pydantic's `EmailStr` (email-validator)
lowercases the domain part after the `@` and leaves the local part as
written. -/
def pydanticEmail (s : String) : String :=
  String.mk (lowerAfterAtAux s.data)
where
  lowerAfterAtAux : List Char → List Char
  | [] => []
  | c :: cs => if c = '@' then c :: cs.map lowerChar else c :: lowerAfterAtAux cs

/-- Stand-in for the bcrypt password hash (injective tagging is enough for
this development; the only facts used are that OAuth users carry the empty
string and password users do not). -/
def hash_password (p : String) : String := "bcrypt$" ++ p

/-- The `/auth/register` endpoint (main.py) composed with
`BaseUserManager.create` of fastapi_users and `BeanieUserDatabase.get_by_email`.
With `email_collation = None` in models.py the duplicate lookup is an exact
(case-sensitive) match on the stored email string.  On success the
`on_after_register` hook runs; any raised exception is converted to a 400. -/
def register (insertFails : Bool) (db : DB)
    (email password full_name : String) : Except HttpError (DB × Nat) :=
  let e := pydanticEmail email
  match db.users.find? (fun u => decide (u.email = e)) with
  | some _ => .error (.badRequest "UserAlreadyExists")
  | none =>
      let u : UserRec :=
        { id := db.nextId, email := e, hashed_password := hash_password password,
          is_active := true, is_verified := false, full_name := some full_name,
          google_id := none, avatar_url := none, role := "interviewee",
          created_at := db.now, updated_at := db.now }
      let db1 := { db with users := db.users ++ [u], nextId := db.nextId + 1 }
      .ok (on_after_register insertFails db1 u.id, u.id)

/-- `StorageService.delete_file` (services/storage_service.py).  Local
backend: `os.remove`, with `OSError` (missing file or any backend fault,
modelled by `backendFails`) caught and turned into `false`.  S3 backend:
`delete_object`, which also succeeds on absent keys, with `ClientError`
caught and turned into `false`.  Any other configured storage type falls
through and returns `None`.  The function never raises. -/
def StorageService.delete_file (storage_type : String) (backendFails : Bool)
    (blobs : List String) (file_path : String) : List String × Option Bool :=
  if storage_type = "local" then
    if backendFails || !(blobs.contains file_path) then (blobs, some false)
    else (blobs.erase file_path, some true)
  else if storage_type = "s3" then
    if backendFails then (blobs, some false)
    else (blobs.erase file_path, some true)
  else (blobs, none)

/-- The `GET /sessions/{session_id}` endpoint (main.py): ownership guard
first, uniform 404 on failure, then the plain lookup by id. -/
def get_session_endpoint (db : DB) (user_id session_id : Nat) :
    Except HttpError (Option SessionRec) :=
  if user_owns_resource db user_id session_id "session" then
    .ok (get_session_by_id db session_id)
  else .error (.notFound "Session not found")

/-- The `GET /files/{file_id}` endpoint (main.py): ownership guard first,
uniform 404 on failure, then the lookup by id (response assembly is
abstracted to the found document). -/
def get_file_endpoint (db : DB) (user_id file_id : Nat) :
    Except HttpError MediaFileRec :=
  if user_owns_resource db user_id file_id "media" then
    match db.mediaFiles.find? (fun f => decide (f.id = file_id)) with
    | some f => .ok f
    | none => .error (.serverError "missing document")
  else .error (.notFound "File not found")

/-- The `DELETE /files/{file_id}` endpoint (main.py): ownership guard first
(uniform 404), then `storage_service.delete_file` on the blob (result
ignored), then `media_file.delete()` on the metadata document.
`metaDeleteFails` models the metadata delete raising; the endpoint performs
no rollback of the storage delete in that case.  The state is returned next
to the outcome so that partial effects stay visible. -/
def delete_file_endpoint (storage_type : String)
    (backendFails metaDeleteFails : Bool) (db : DB) (user_id file_id : Nat) :
    DB × Except HttpError String :=
  if user_owns_resource db user_id file_id "media" then
    match db.mediaFiles.find? (fun f => decide (f.id = file_id)) with
    | some f =>
        let blobs1 :=
          (StorageService.delete_file storage_type backendFails db.blobs f.file_path).1
        let db1 := { db with blobs := blobs1 }
        if metaDeleteFails then (db1, .error (.serverError "metadata delete failed"))
        else ({ db1 with mediaFiles := db1.mediaFiles.filter (fun g => decide (g.id ≠ file_id)) },
              .ok "File deleted successfully")
    | none => (db, .error (.serverError "missing document"))
  else (db, .error (.notFound "File not found"))

/-- `UserService.get_user_preferences` (services/user_service.py): return the
existing record, else insert a default one. -/
def get_user_preferences_svc (db : DB) (user_id : Nat) : DB × PreferencesRec :=
  match db.preferences.find? (fun p => decide (p.user_id = user_id)) with
  | some p => (db, p)
  | none =>
      let p := defaultPrefs db.nextId user_id db.now
      ({ db with preferences := db.preferences ++ [p], nextId := db.nextId + 1 }, p)

/-- The update payload for `PUT /preferences`: a dict whose known keys are
applied with `setattr`.  Every declared model attribute passes the `hasattr`
test — `id` and `user_id` included — so all of them are part of the payload
type; unknown keys are dropped by the `hasattr` test. -/
structure PrefsData where
  id : Option Nat := none
  user_id : Option Nat := none
  preferred_duration : Option Nat := none
  difficulty_level : Option String := none
  interview_types : Option (List String) := none
  email_notifications : Option Bool := none
  reminder_notifications : Option Bool := none
  data_retention_days : Option Nat := none
  allow_data_analysis : Option Bool := none
deriving DecidableEq, Repr

/-- The `setattr` loop of `UserService.update_user_preferences`: every
provided field — `id` and `user_id` included — overwrites the stored one. -/
def applyPrefsData (p : PreferencesRec) (d : PrefsData) : PreferencesRec :=
  { p with
    id := d.id.getD p.id,
    user_id := d.user_id.getD p.user_id,
    preferred_duration := d.preferred_duration.getD p.preferred_duration,
    difficulty_level := d.difficulty_level.getD p.difficulty_level,
    interview_types := d.interview_types.getD p.interview_types,
    email_notifications := d.email_notifications.getD p.email_notifications,
    reminder_notifications := d.reminder_notifications.getD p.reminder_notifications,
    data_retention_days := d.data_retention_days.getD p.data_retention_days,
    allow_data_analysis := d.allow_data_analysis.getD p.allow_data_analysis }

/-- `UserService.update_user_preferences` (services/user_service.py).  Absent
record: construct `UserPreferences(user_id=..., **data)` — passing `user_id`
inside the payload as well raises a duplicate-keyword `TypeError`.  Present
record: `setattr` every provided field (so a payload `id` rewrites the
document id), refresh `updated_at`, then `save()` — a Beanie upsert keyed on
the document's (possibly rewritten) id: it replaces the document carrying
that id when one exists and inserts a new document otherwise. -/
def update_user_preferences_svc (db : DB) (user_id : Nat) (d : PrefsData) :
    Except String (DB × PreferencesRec) :=
  match db.preferences.find? (fun p => decide (p.user_id = user_id)) with
  | none =>
      if d.user_id.isSome then .error "multiple values for user_id"
      else
        let p := applyPrefsData (defaultPrefs db.nextId user_id db.now) d
        .ok ({ db with preferences := db.preferences ++ [p], nextId := db.nextId + 1 }, p)
  | some p =>
      let p1 := { applyPrefsData p d with updated_at := db.now }
      match db.preferences.find? (fun q => decide (q.id = p1.id)) with
      | some _ =>
          .ok ({ db with preferences := db.preferences.map (fun q =>
                   if q.id = p1.id then p1 else q) }, p1)
      | none =>
          .ok ({ db with preferences := db.preferences ++ [p1] }, p1)

/-- The invariant claimed for preferences: at most one record per user. -/
def prefsAtMostOne (db : DB) : Prop :=
  ∀ u : Nat, (db.preferences.filter (fun p => decide (p.user_id = u))).length ≤ 1

/-- Token lifetime in seconds, from `get_jwt_strategy` in auth.py. -/
def jwt_lifetime_seconds : Nat := 3600

/-- A decoded bearer token: principal and expiry instant. -/
structure AuthToken where
  user_id : Nat
  expires_at : Nat
deriving DecidableEq, Repr

/-- Modelled from the spec: the issue half of the Token Service.  The actual
signing lives in the fastapi_users `JWTStrategy` library, not in this
repository; only the 3600-second lifetime configured by `get_jwt_strategy`
is repository code.  Per spec section 4.2 the token encodes the user id and
an expiry `issued_at + lifetime`. -/
def issue_token (now user_id : Nat) : AuthToken :=
  { user_id := user_id, expires_at := now + jwt_lifetime_seconds }

/-- Modelled from the spec: the validate half of the Token Service (library
code, see `issue_token`).  A token validates to its principal while the
clock is before the expiry instant and fails with TokenInvalid otherwise;
signature checking is abstracted away (all modelled tokens are
well-signed). -/
def validate_token (tok : AuthToken) (now : Nat) : Except String Nat :=
  if now < tok.expires_at then .ok tok.user_id else .error "TokenInvalid"

/- ------------------------------------------------------------------ -/
/- Concrete states used by witnesses and counterexamples.             -/
/- ------------------------------------------------------------------ -/

/-- A session created first (earlier timestamp). -/
def sessA : SessionRec :=
  { id := 0, user_id := 1, session_name := "first", session_type := "technical",
    status := "active", created_at := 1, updated_at := 1 }

/-- A session created second (later timestamp). -/
def sessB : SessionRec :=
  { id := 1, user_id := 1, session_name := "second", session_type := "technical",
    status := "active", created_at := 2, updated_at := 2 }

/-- Database holding the two sessions of user 1 in insertion order. -/
def sessDB : DB := { emptyDB with sessions := [sessA, sessB], nextId := 2, now := 3 }

/-- A media file owned by user 0 whose blob is present in storage. -/
def mfRec : MediaFileRec :=
  { id := 1, user_id := 0, session_id := none, file_type := "video",
    file_path := "storage/users/0/uploads/a.mp4", file_size := some 10,
    mime_type := some "video/mp4", created_at := 0, processing_status := "pending" }

/-- Database holding `mfRec` and its blob. -/
def mediaDB : DB :=
  { emptyDB with mediaFiles := [mfRec], blobs := ["storage/users/0/uploads/a.mp4"], nextId := 2 }

/-- A user that already carries a google binding. -/
def wUser : UserRec :=
  { id := 0, email := "w@x.com", hashed_password := "bcrypt$w", is_active := true,
    is_verified := true, full_name := none, google_id := some "g",
    avatar_url := none, role := "interviewee", created_at := 0, updated_at := 0 }

/-- Database holding `wUser`. -/
def wDB : DB := { emptyDB with users := [wUser], nextId := 1 }

/-- An unverified password account with no google binding. -/
def c2User : UserRec :=
  { id := 0, email := "e@x.com", hashed_password := "bcrypt$pw", is_active := true,
    is_verified := false, full_name := some "Old", google_id := none,
    avatar_url := none, role := "interviewee", created_at := 0, updated_at := 0 }

/-- Database holding `c2User`. -/
def c2DB : DB := { emptyDB with users := [c2User], nextId := 1 }

/-- The user record produced by registering "A@x.com". -/
def regUser0 : UserRec :=
  { id := 0, email := "A@x.com", hashed_password := "bcrypt$pw1", is_active := true,
    is_verified := false, full_name := some "Alice", google_id := none,
    avatar_url := none, role := "interviewee", created_at := 0, updated_at := 0 }

/-- The database after registering "A@x.com" on the empty state. -/
def regDB1 : DB :=
  { emptyDB with users := [regUser0], preferences := [defaultPrefs 1 0 0], nextId := 2 }

/-- The user record produced by then registering "a@X.com" (pydantic
lowercases only the domain). -/
def regUser1 : UserRec :=
  { id := 2, email := "a@x.com", hashed_password := "bcrypt$pw2", is_active := true,
    is_verified := false, full_name := some "Bob", google_id := none,
    avatar_url := none, role := "interviewee", created_at := 0, updated_at := 0 }

/-- The database after the second, differently-cased registration. -/
def regDB2 : DB :=
  { emptyDB with users := [regUser0, regUser1], preferences := [defaultPrefs 1 0 0, defaultPrefs 3 2 0], nextId := 4 }

/-- Database with one preferences record for user 5 and one for user 6. -/
def prefsCexDB : DB :=
  { emptyDB with preferences := [defaultPrefs 0 5 0, defaultPrefs 1 6 0], nextId := 2 }

/- ------------------------------------------------------------------ -/
/- Helper lemmas shared by the claim theorems.                        -/
/- ------------------------------------------------------------------ -/

/-- The registration hook only ever touches the preferences collection and
the id source: the users collection survives it unchanged. -/
theorem on_after_register_preserves_users (pf : Bool) (db : DB) (uid : Nat) :
    (on_after_register pf db uid).users = db.users := by
  unfold on_after_register create_user_preferences
  cases hfind : db.preferences.find? (fun p => decide (p.user_id = uid)) with
  | none => cases pf <;> simp
  | some q => simp

/-- A successful preferences creation leaves the users collection as it
was. -/
theorem create_user_preferences_ok_users (pf : Bool) (db db1 : DB) (uid : Nat)
    (h : create_user_preferences pf db uid = .ok db1) :
    db1.users = db.users := by
  unfold create_user_preferences at h
  cases hfind : db.preferences.find? (fun p => decide (p.user_id = uid)) with
  | none =>
      rw [hfind] at h
      cases pf with
      | false => simp at h; rw [← h]
      | true => simp at h
  | some q => rw [hfind] at h; simp at h; rw [← h]

/-- After the email-link branch rewrote one user in place, the google-id
lookup of a second callback finds exactly the rewritten user. -/
theorem find?_map_link (l : List UserRec) (aid : String) (u0 u1 : UserRec)
    (hnone : l.find? (fun v => decide (v.google_id = some aid)) = none)
    (hu1 : u1.google_id = some aid)
    (hmem : u0 ∈ l) :
    (l.map (fun v => if v.id = u0.id then u1 else v)).find?
      (fun v => decide (v.google_id = some aid)) = some u1 := by
  induction l with
  | nil => cases hmem
  | cons a t ih =>
      rw [List.find?_eq_none] at hnone
      by_cases hid : a.id = u0.id
      · simp [List.find?_cons, hid, hu1]
      · have ha : ¬ (a.google_id = some aid) := by
          have := hnone a (List.mem_cons_self a t)
          simpa using this
        have hm : u0 ∈ t := by
          rcases List.mem_cons.mp hmem with h | h
          · exact absurd (by rw [h]) hid
          · exact h
        have ht : t.find? (fun v => decide (v.google_id = some aid)) = none := by
          rw [List.find?_eq_none]
          intro x hx
          exact hnone x (List.mem_cons_of_mem a hx)
        simpa [List.find?_cons, hid, ha] using ih ht hm

/-- Replacing list elements without changing how the predicate evaluates
keeps the filtered length. -/
theorem length_filter_map_congr {α : Type} (l : List α) (g : α → α)
    (pred : α → Bool) (h : ∀ x ∈ l, pred (g x) = pred x) :
    ((l.map g).filter pred).length = (l.filter pred).length := by
  induction l with
  | nil => rfl
  | cons a t ih =>
      have ha := h a (List.mem_cons_self a t)
      have ht : ∀ x ∈ t, pred (g x) = pred x :=
        fun x hx => h x (List.mem_cons_of_mem a hx)
      cases hpa : pred a <;>
        simp [List.filter_cons, ha, hpa, ih ht]

/- ------------------------------------------------------------------ -/
/- Claim theorems.                                                    -/
/- ------------------------------------------------------------------ -/

/-- Claim C1: `user_owns_resource` returns true exactly when a resource of
the given kind with the given id exists and is owned by the principal; it
returns false (not an error) both for a missing resource and for one owned
by someone else, and the session/file endpoints surface both cases as the
same uniform 404 outcome. -/
theorem ownership_guard_uniform_not_found (db : DB) (u r : Nat) :
    (user_owns_resource db u r "session" = true ↔
       ∃ s, s ∈ db.sessions ∧ s.id = r ∧ s.user_id = u) ∧
    (user_owns_resource db u r "media" = true ↔
       ∃ f, f ∈ db.mediaFiles ∧ f.id = r ∧ f.user_id = u) ∧
    (user_owns_resource db u r "conversation" = true ↔
       ∃ c, c ∈ db.conversations ∧ c.id = r ∧ c.user_id = u) ∧
    (user_owns_resource db u r "session" = false →
       get_session_endpoint db u r = .error (.notFound "Session not found")) ∧
    (user_owns_resource db u r "media" = false →
       get_file_endpoint db u r = .error (.notFound "File not found") ∧
       ∀ st bf mf, delete_file_endpoint st bf mf db u r =
         (db, .error (.notFound "File not found"))) := by
  refine ⟨?_, ?_, ?_, ?_, ?_⟩
  · simp [user_owns_resource, List.find?_isSome]
  · simp [user_owns_resource, List.find?_isSome]
  · simp [user_owns_resource, List.find?_isSome]
  · intro h
    simp [get_session_endpoint, h]
  · intro h
    constructor
    · simp [get_file_endpoint, h]
    · intro st bf mf
      simp [delete_file_endpoint, h]

/-- Witness for C1: on the empty database the session endpoint surfaces the
uniform not-found outcome. -/
theorem ownership_guard_uniform_not_found_witness :
    get_session_endpoint emptyDB 0 0 = .error (.notFound "Session not found") :=
  (ownership_guard_uniform_not_found emptyDB 0 0).2.2.2.1 (by decide)

/-- Claim C4 (spec-modelled Token Service): a token issued at `t0` for `u`
carries a 3600-second lifetime, validates back to `u` at every instant
strictly before its expiry and fails with TokenInvalid at every instant
strictly after it; in particular it is valid at expiry minus one second and
invalid at expiry plus one second. -/
theorem token_lifetime_and_boundary (u t0 : Nat) :
    (issue_token t0 u).expires_at = t0 + 3600 ∧
    (∀ t, t < (issue_token t0 u).expires_at →
       validate_token (issue_token t0 u) t = .ok u) ∧
    (∀ t, (issue_token t0 u).expires_at < t →
       validate_token (issue_token t0 u) t = .error "TokenInvalid") ∧
    validate_token (issue_token t0 u) (t0 + 3599) = .ok u ∧
    validate_token (issue_token t0 u) (t0 + 3601) = .error "TokenInvalid" := by
  refine ⟨rfl, ?_, ?_, ?_, ?_⟩
  · intro t ht
    unfold validate_token
    rw [if_pos ht]
    rfl
  · intro t ht
    unfold validate_token
    rw [if_neg (by omega)]
  · have h : t0 + 3599 < (issue_token t0 u).expires_at := by
      simp [issue_token, jwt_lifetime_seconds]
    unfold validate_token
    rw [if_pos h]
    rfl
  · have h : ¬ (t0 + 3601 < (issue_token t0 u).expires_at) := by
      simp [issue_token, jwt_lifetime_seconds]
    unfold validate_token
    rw [if_neg h]

/-- Witness for C4: a token issued at time 0 for user 7 still validates at
time 100. -/
theorem token_lifetime_and_boundary_witness :
    validate_token (issue_token 0 7) 100 = .ok 7 :=
  (token_lifetime_and_boundary 7 0).2.1 100 (by decide)

/-- Claim C9 counterexample: the session listing applies no sort stage, so
for user 1 in `sessDB` (two sessions inserted in ascending created_at order)
the result comes back ascending, not ordered by created_at descending as the
claim states. -/
theorem sessions_listing_not_sorted_descending :
    get_user_sessions_svc sessDB 1 = [sessA, sessB] ∧
    ¬ List.Pairwise (fun a b => b.created_at ≤ a.created_at)
        (get_user_sessions_svc sessDB 1) := by
  constructor
  · rfl
  · decide

/-- Claim C9 (amended): the session listing returns exactly the sessions
whose user_id equals the requester, in database (insertion) order — it is a
pure ownership filter with no created_at sort. -/
theorem sessions_listing_members_and_order (db : DB) (uid : Nat) :
    (∀ s : SessionRec,
       s ∈ get_user_sessions_svc db uid ↔ s ∈ db.sessions ∧ s.user_id = uid) ∧
    List.Sublist (get_user_sessions_svc db uid) db.sessions := by
  constructor
  · intro s
    simp [get_user_sessions_svc, List.mem_filter]
  · exact List.filter_sublist db.sessions

/-- Claim C10: `StorageService.delete_file` never raises — a backend failure
(OSError locally, ClientError on S3) is returned as `false` with the blob
store untouched — and consequently the owner's delete request still removes
the MediaFile metadata and reports success even when the blob deletion
failed, leaving the blob orphaned. -/
theorem storage_delete_total_and_orphaning (blobs : List String) (pth : String)
    (db : DB) (uid fid : Nat) (f : MediaFileRec) :
    StorageService.delete_file "local" true blobs pth = (blobs, some false) ∧
    StorageService.delete_file "s3" true blobs pth = (blobs, some false) ∧
    (user_owns_resource db uid fid "media" = true →
     db.mediaFiles.find? (fun g => decide (g.id = fid)) = some f →
     ∀ st, (st = "local" ∨ st = "s3") →
       delete_file_endpoint st true false db uid fid =
         ({ db with mediaFiles := db.mediaFiles.filter (fun g => decide (g.id ≠ fid)) },
          .ok "File deleted successfully") ∧
       (delete_file_endpoint st true false db uid fid).1.blobs = db.blobs) := by
  refine ⟨?_, ?_, ?_⟩
  · simp [StorageService.delete_file]
  · simp [StorageService.delete_file]
  · intro hown hfind st hst
    rcases hst with h | h <;> subst h <;>
      refine ⟨?_, ?_⟩ <;>
        simp [delete_file_endpoint, hown, hfind, StorageService.delete_file]

/-- Witness for C10: with a failing backend the owner's delete of `mfRec`
still removes the metadata and reports success, and the blob stays behind. -/
theorem storage_delete_total_and_orphaning_witness :
    delete_file_endpoint "local" true false mediaDB 0 1 =
      ({ mediaDB with mediaFiles := mediaDB.mediaFiles.filter (fun g => decide (g.id ≠ 1)) },
       .ok "File deleted successfully") :=
  ((storage_delete_total_and_orphaning mediaDB.blobs "x" mediaDB 0 1 mfRec).2.2
    (by decide) (by decide) "local" (Or.inl rfl)).1

/-- Claim C7: a delete request for a media file the requester does not own
(missing or someone else's) fails with the uniform 404 and leaves blob and
metadata untouched; the owner's delete removes the blob first and the
metadata after it, and when the metadata delete fails the already-performed
blob delete is not rolled back. -/
theorem delete_file_guard_and_ordering (db : DB) (uid fid : Nat) (bf : Bool)
    (f : MediaFileRec) :
    (∀ st mf, user_owns_resource db uid fid "media" = false →
       delete_file_endpoint st bf mf db uid fid =
         (db, .error (.notFound "File not found"))) ∧
    (user_owns_resource db uid fid "media" = true →
     db.mediaFiles.find? (fun g => decide (g.id = fid)) = some f →
     ((bf = false → db.blobs.contains f.file_path = true →
        delete_file_endpoint "local" bf false db uid fid =
          ({ db with blobs := db.blobs.erase f.file_path,
                     mediaFiles := db.mediaFiles.filter (fun g => decide (g.id ≠ fid)) },
           .ok "File deleted successfully")) ∧
      (∀ st, delete_file_endpoint st bf true db uid fid =
          ({ db with blobs := (StorageService.delete_file st bf db.blobs f.file_path).1 },
           .error (.serverError "metadata delete failed"))))) := by
  constructor
  · intro st mf h
    simp [delete_file_endpoint, h]
  · intro hown hfind
    constructor
    · intro hbf hblob
      subst hbf
      have hmem : f.file_path ∈ db.blobs := by simpa using hblob
      simp [delete_file_endpoint, hown, hfind, StorageService.delete_file, hmem]
    · intro st
      simp [delete_file_endpoint, hown, hfind]

/-- Witness for C7: the owner's delete of `mfRec` with a healthy backend
removes both the blob and the metadata record. -/
theorem delete_file_guard_and_ordering_witness :
    delete_file_endpoint "local" false false mediaDB 0 1 =
      ({ mediaDB with blobs := mediaDB.blobs.erase mfRec.file_path,
                      mediaFiles := mediaDB.mediaFiles.filter (fun g => decide (g.id ≠ 1)) },
       .ok "File deleted successfully") :=
  (((delete_file_guard_and_ordering mediaDB 0 1 false mfRec).2
      (by decide) (by decide)).1 rfl (by decide))

/-- Claim C5 counterexample: in the new-user branch of `oauth_callback` the
preferences creation is not guarded — when its insert raises, the exception
propagates to the caller and the created user is not returned. -/
theorem oauth_create_prefs_failure_propagates :
    oauth_callback true emptyDB "google" "g1" "new@x.com"
      { name := some "N", picture := none } =
      .error "preferences insert failed" := by rfl

/-- Claim C5 (amended): `on_after_register` swallows a preferences-creation
failure and completes unchanged, but the new-user branch of `oauth_callback`
propagates the same failure instead of returning the created user. -/
theorem prefs_failure_policy (db : DB) (uid : Nat) (aid email : String)
    (p : Profile) :
    on_after_register true db uid = db ∧
    (db.users.find? (fun v => decide (v.google_id = some aid)) = none →
     db.users.find? (fun v => decide (v.email = email)) = none →
     db.preferences.find? (fun q => decide (q.user_id = db.nextId)) = none →
     oauth_callback true db "google" aid email p =
       .error "preferences insert failed") := by
  constructor
  · unfold on_after_register create_user_preferences
    cases hfind : db.preferences.find? (fun q => decide (q.user_id = uid)) <;> simp
  · intro hg he hp
    simp [oauth_callback, hg, he, create_user_preferences, oauthNewUser, hp]

/-- Witness for C5: on `wDB` (no matching google id, no matching email, no
preferences for the fresh id) a failing preferences insert surfaces as an
error from the OAuth callback. -/
theorem prefs_failure_policy_witness :
    oauth_callback true wDB "google" "h" "z@x.com" { name := none, picture := none } =
      .error "preferences insert failed" :=
  (prefs_failure_policy wDB 0 "h" "z@x.com" { name := none, picture := none }).2
    (by decide) (by decide) (by decide)

/-- Claim C6 counterexample: "A@x.com" and "a@X.com" agree after the
lowercase-and-trim normalization the claim assumes, yet with
`email_collation = None` the second registration is not rejected — it
creates a second user record. -/
theorem register_mixed_case_duplicate_not_rejected :
    specNormalizeEmail "A@x.com" = specNormalizeEmail "a@X.com" ∧
    register false emptyDB "A@x.com" "pw1" "Alice" = .ok (regDB1, 0) ∧
    register false regDB1 "a@X.com" "pw2" "Bob" = .ok (regDB2, 2) ∧
    regDB2.users.length = 2 := by
  refine ⟨by decide, by rfl, by rfl, by decide⟩

/-- Claim C6 (amended): the duplicate check is an exact (case-sensitive)
match on the stored email string after pydantic's domain lowercasing: a
second registration with the identical stored email fails with the
duplicate-identity error and creates nothing, while emails differing in
local-part case pass the check and add a new user record. -/
theorem register_exact_duplicate_check (pf : Bool) (db : DB)
    (email pw nm : String) :
    (∀ u, db.users.find? (fun v => decide (v.email = pydanticEmail email)) = some u →
       register pf db email pw nm = .error (.badRequest "UserAlreadyExists")) ∧
    (db.users.find? (fun v => decide (v.email = pydanticEmail email)) = none →
     ∀ db1 uid, register pf db email pw nm = .ok (db1, uid) →
       uid = db.nextId ∧ db1.users.length = db.users.length + 1) := by
  constructor
  · intro u h
    simp [register, h]
  · intro h db1 uid hok
    simp only [register, h, Except.ok.injEq, Prod.mk.injEq] at hok
    obtain ⟨h1, h2⟩ := hok
    refine ⟨h2.symm, ?_⟩
    rw [← h1, on_after_register_preserves_users]
    simp

/-- Witness for C6: re-registering the exact stored email "A@x.com" on
`regDB1` is rejected with the duplicate error. -/
theorem register_exact_duplicate_check_witness :
    register false regDB1 "A@x.com" "pwX" "Zoe" =
      .error (.badRequest "UserAlreadyExists") :=
  (register_exact_duplicate_check false regDB1 "A@x.com" "pwX" "Zoe").1
    regUser0 (by decide)

/-- Claim C2 counterexample: in the email-match branch the code links the
account (google id, name, avatar, timestamp) but does not mark the user
verified — `c2User` is unverified before the callback and the linked record
is still unverified afterwards, where the claim requires it verified. -/
theorem oauth_link_does_not_mark_verified :
    oauth_callback false c2DB "google" "g1" "e@x.com"
        { name := some "N", picture := some "P" } =
      .ok ({ c2DB with users :=
               [linkGoogle c2User "g1" { name := some "N", picture := some "P" } 0] },
           some 0) ∧
    (linkGoogle c2User "g1" { name := some "N", picture := some "P" } 0).google_id
      = some "g1" ∧
    (linkGoogle c2User "g1" { name := some "N", picture := some "P" } 0).is_verified
      = false := by
  refine ⟨by rfl, by decide, by decide⟩

/-- Claim C2 (amended): for provider "google" the three-way priority order
holds — an existing google-id binding returns that user with the state
unchanged; otherwise an email match links the account in place (google id
set, name and avatar overwritten, timestamp refreshed, verification flag
left as it was); otherwise a fresh user is created with the given email,
the google id set, an empty password hash, is_verified true and the profile
fields copied. -/
theorem oauth_resolution_order (pf : Bool) (db : DB) (aid email : String)
    (p : Profile) :
    (∀ u, db.users.find? (fun v => decide (v.google_id = some aid)) = some u →
       oauth_callback pf db "google" aid email p = .ok (db, some u.id)) ∧
    (db.users.find? (fun v => decide (v.google_id = some aid)) = none →
     ∀ u, db.users.find? (fun v => decide (v.email = email)) = some u →
       oauth_callback pf db "google" aid email p =
         .ok ({ db with users := db.users.map (fun v =>
                  if v.id = u.id then linkGoogle u aid p db.now else v) },
              some u.id) ∧
       (linkGoogle u aid p db.now).google_id = some aid ∧
       (linkGoogle u aid p db.now).full_name = p.name ∧
       (linkGoogle u aid p db.now).avatar_url = p.picture ∧
       (linkGoogle u aid p db.now).updated_at = db.now ∧
       (linkGoogle u aid p db.now).is_verified = u.is_verified ∧
       (linkGoogle u aid p db.now).hashed_password = u.hashed_password) ∧
    (db.users.find? (fun v => decide (v.google_id = some aid)) = none →
     db.users.find? (fun v => decide (v.email = email)) = none →
     ∀ db2 o, oauth_callback pf db "google" aid email p = .ok (db2, o) →
       o = some db.nextId ∧
       db2.users = db.users ++ [oauthNewUser db aid email p] ∧
       (oauthNewUser db aid email p).email = email ∧
       (oauthNewUser db aid email p).google_id = some aid ∧
       (oauthNewUser db aid email p).hashed_password = "" ∧
       (oauthNewUser db aid email p).is_verified = true ∧
       (oauthNewUser db aid email p).full_name = p.name ∧
       (oauthNewUser db aid email p).avatar_url = p.picture) := by
  refine ⟨?_, ?_, ?_⟩
  · intro u h
    simp [oauth_callback, h]
  · intro hg u he
    refine ⟨?_, rfl, rfl, rfl, rfl, rfl, rfl⟩
    simp [oauth_callback, hg, he]
  · intro hg he db2 o hok
    simp only [oauth_callback, hg, he] at hok
    cases hcp : create_user_preferences pf
        { db with users := db.users ++ [oauthNewUser db aid email p],
                  nextId := db.nextId + 1 }
        (oauthNewUser db aid email p).id with
    | ok d =>
        rw [hcp] at hok
        simp only [Except.ok.injEq, Prod.mk.injEq] at hok
        obtain ⟨h1, h2⟩ := hok
        have hu := create_user_preferences_ok_users pf _ _ _ hcp
        refine ⟨?_, ?_, rfl, rfl, rfl, rfl, rfl, rfl⟩ <;> simp_all [oauthNewUser]
    | error e =>
        rw [hcp] at hok
        simp at hok

/-- Witness for C2: on `wDB` the google-id binding of `wUser` wins and the
callback returns that user with the state unchanged. -/
theorem oauth_resolution_order_witness :
    oauth_callback false wDB "google" "g" "other@x.com"
      { name := none, picture := none } = .ok (wDB, some 0) :=
  (oauth_resolution_order false wDB "g" "other@x.com"
    { name := none, picture := none }).1 wUser (by decide)

/-- Claim C3: a second `oauth_callback` with identical inputs returns the
same result as the first and leaves the state exactly as the first call left
it (so no duplicate user record is ever created); and when the email matched
an existing password-based account, the first call left the user count
unchanged and bound the google id on that linked account. -/
theorem oauth_callback_idempotent (pf : Bool) (db db1 : DB)
    (provider aid email : String) (p : Profile) (o1 : Option Nat)
    (h : oauth_callback pf db provider aid email p = .ok (db1, o1)) :
    oauth_callback pf db1 provider aid email p = .ok (db1, o1) ∧
    (provider = "google" →
     ∀ u0, db.users.find? (fun v => decide (v.google_id = some aid)) = none →
       db.users.find? (fun v => decide (v.email = email)) = some u0 →
       u0.hashed_password ≠ "" →
       db1.users.length = db.users.length ∧
       db1.users.find? (fun v => decide (v.google_id = some aid)) =
         some (linkGoogle u0 aid p db.now)) := by
  by_cases hprov : provider = "google"
  · subst hprov
    cases hg : db.users.find? (fun v => decide (v.google_id = some aid)) with
    | some u =>
        simp only [oauth_callback, hg, Except.ok.injEq, Prod.mk.injEq] at h
        obtain ⟨h1, h2⟩ := h
        refine ⟨?_, ?_⟩
        · simp only [oauth_callback, hg, if_true]
        · intro _ u0 hgn
          exact absurd hgn (by simp)
    | none =>
        cases he : db.users.find? (fun v => decide (v.email = email)) with
        | some u0 =>
            simp only [oauth_callback, hg, he, Except.ok.injEq, Prod.mk.injEq] at h
            obtain ⟨h1, h2⟩ := h
            have hmem : u0 ∈ db.users := List.mem_of_find?_eq_some he
            have hfind2 :=
              find?_map_link db.users aid u0 (linkGoogle u0 aid p db.now) hg rfl hmem
            refine ⟨?_, ?_⟩
            · simp only [oauth_callback, hfind2, if_true]
              rfl
            · intro _ u1 hgn hen hpw
              injection hen with hu
              subst hu
              refine ⟨by simp, ?_⟩
              exact hfind2
        | none =>
            simp only [oauth_callback, hg, he] at h
            cases hcp : create_user_preferences pf
                { db with users := db.users ++ [oauthNewUser db aid email p],
                          nextId := db.nextId + 1 }
                (oauthNewUser db aid email p).id with
            | ok d =>
                rw [hcp] at h
                simp only [Except.ok.injEq, Prod.mk.injEq] at h
                obtain ⟨h1, h2⟩ := h
                have hu : db1.users = db.users ++ [oauthNewUser db aid email p] :=
                  create_user_preferences_ok_users pf _ _ _ hcp
                have hfind1 : db1.users.find?
                    (fun v => decide (v.google_id = some aid)) =
                    some (oauthNewUser db aid email p) := by
                  rw [hu]
                  simp [List.find?_append, hg, oauthNewUser]
                refine ⟨?_, ?_⟩
                · simp only [oauth_callback, hfind1, oauthNewUser, if_true]
                · intro _ u1 hgn hen
                  exact absurd hen (by simp)
            | error e =>
                rw [hcp] at h
                simp at h
  · simp only [oauth_callback, if_neg hprov, Except.ok.injEq, Prod.mk.injEq] at h
    obtain ⟨h1, h2⟩ := h
    subst h1
    subst h2
    refine ⟨?_, ?_⟩
    · simp only [oauth_callback, if_neg hprov]
    · intro hx
      exact absurd hx hprov

/-- Witness for C3: a repeated callback on `wDB` returns the same user id
and leaves the state unchanged. -/
theorem oauth_callback_idempotent_witness :
    oauth_callback false wDB "google" "g" "w@x.com"
      { name := none, picture := none } = .ok (wDB, some 0) :=
  (oauth_callback_idempotent false wDB wDB "google" "g" "w@x.com"
    { name := none, picture := none } (some 0) (by rfl)).1

/-- Appending a single preferences record for a user that had none preserves
the at-most-one-record-per-user property. -/
theorem prefs_append_one_keeps_invariant (db : DB) (uid : Nat)
    (p : PreferencesRec) (hinv : prefsAtMostOne db)
    (hfind : db.preferences.find? (fun q => decide (q.user_id = uid)) = none)
    (hp : p.user_id = uid) :
    ∀ u : Nat,
      ((db.preferences ++ [p]).filter (fun q => decide (q.user_id = u))).length ≤ 1 := by
  intro u
  rw [List.filter_append]
  by_cases hu : u = uid
  · subst hu
    have hempty : db.preferences.filter (fun q => decide (q.user_id = u)) = [] := by
      rw [List.filter_eq_nil_iff]
      intro a ha
      have := List.find?_eq_none.mp hfind a ha
      simpa using this
    simp [hempty, hp]
  · have hone : List.filter (fun q => decide (q.user_id = u)) [p] = [] := by
      simp [hp, Ne.symm hu]
    rw [hone]
    simpa using hinv u

/-- Claim C8 counterexample: the setattr loop of `update_user_preferences`
applies every payload key that is a declared model attribute, `user_id` and
`id` included.  Updating user 6's record with payload user_id = 5 leaves two
persisted records whose user_id is 5, and updating it with payload id = 7
(no user_id at all) rewrites the document id so the upsert save inserts a
second record for user 6 — the at-most-one-record-per-user invariant is not
preserved by every preferences operation, and nothing in the store stops the
second record. -/
theorem update_preferences_user_id_breaks_invariant :
    (prefsCexDB.preferences.filter (fun q => decide (q.user_id = 5))).length = 1 ∧
    (prefsCexDB.preferences.filter (fun q => decide (q.user_id = 6))).length = 1 ∧
    (update_user_preferences_svc prefsCexDB 6 { user_id := some 5 }).toOption.map
        (fun x => (x.1.preferences.filter (fun q => decide (q.user_id = 5))).length) =
      some 2 ∧
    (update_user_preferences_svc prefsCexDB 6 { id := some 7 }).toOption.map
        (fun x => (x.1.preferences.filter (fun q => decide (q.user_id = 6))).length) =
      some 2 := by
  refine ⟨by decide, by decide, by rfl, by rfl⟩

/-- Claim C8 (amended): `get_user_preferences` returns the existing record
when present and inserts exactly one default otherwise, and — in this
sequential model — both it and `update_user_preferences` preserve the
at-most-one-record-per-user invariant provided the update payload sets
neither `user_id` nor `id` (a payload user_id re-homes the record onto
another user, and a payload id turns the upsert save into the insert of a
second record, as the counterexample shows); the declared index on user_id
is non-unique, so preservation rests on the code paths alone, not on a
store constraint. -/
theorem preferences_single_record_invariant (db : DB) (uid : Nat)
    (d : PrefsData) :
    (∀ q, db.preferences.find? (fun p => decide (p.user_id = uid)) = some q →
       get_user_preferences_svc db uid = (db, q)) ∧
    (db.preferences.find? (fun p => decide (p.user_id = uid)) = none →
       (get_user_preferences_svc db uid).1.preferences =
         db.preferences ++ [defaultPrefs db.nextId uid db.now]) ∧
    (prefsAtMostOne db → prefsAtMostOne (get_user_preferences_svc db uid).1) ∧
    (prefsAtMostOne db → d.user_id = none → d.id = none →
     (db.preferences.map (fun q => q.id)).Nodup →
     ∀ db1 q1, update_user_preferences_svc db uid d = .ok (db1, q1) →
       prefsAtMostOne db1) := by
  refine ⟨?_, ?_, ?_, ?_⟩
  · intro q h
    simp [get_user_preferences_svc, h]
  · intro h
    simp [get_user_preferences_svc, h]
  · intro hinv
    cases hfind : db.preferences.find? (fun p => decide (p.user_id = uid)) with
    | some q =>
        simpa [get_user_preferences_svc, hfind] using hinv
    | none =>
        simp only [get_user_preferences_svc, hfind]
        intro u
        exact prefs_append_one_keeps_invariant db uid _ hinv hfind rfl u
  · intro hinv hdu hdi hno db1 q1 hok
    cases hfind : db.preferences.find? (fun p => decide (p.user_id = uid)) with
    | none =>
        simp only [update_user_preferences_svc, hfind, hdu, Option.isSome_none,
          Bool.false_eq_true, if_false, Except.ok.injEq, Prod.mk.injEq] at hok
        obtain ⟨h1, h2⟩ := hok
        subst h1
        have hp : (applyPrefsData (defaultPrefs db.nextId uid db.now) d).user_id = uid := by
          simp [applyPrefsData, defaultPrefs, hdu]
        intro u
        exact prefs_append_one_keeps_invariant db uid _ hinv hfind hp u
    | some q =>
        have hid1 : (applyPrefsData q d).id = q.id := by
          simp [applyPrefsData, hdi]
        simp only [update_user_preferences_svc, hfind] at hok
        cases hf2 : db.preferences.find?
            (fun r => decide (r.id = (applyPrefsData q d).id)) with
        | none =>
            have hcontra :=
              List.find?_eq_none.mp hf2 q (List.mem_of_find?_eq_some hfind)
            simp [hid1] at hcontra
        | some r =>
            rw [hf2] at hok
            simp only [Except.ok.injEq, Prod.mk.injEq] at hok
            obtain ⟨h1, h2⟩ := hok
            subst h1
            intro u
            have hcong : ∀ x ∈ db.preferences,
                (fun s => decide (s.user_id = u))
                  (if x.id = (applyPrefsData q d).id then
                     { applyPrefsData q d with updated_at := db.now } else x) =
                (fun s => decide (s.user_id = u)) x := by
              intro x hx
              by_cases hid : x.id = (applyPrefsData q d).id
              · have hidq : x.id = q.id := by rw [hid, hid1]
                have hq : x = q :=
                  List.inj_on_of_nodup_map hno hx (List.mem_of_find?_eq_some hfind) hidq
                simp [hid, applyPrefsData, hdu, hdi, hq]
              · simp [hid]
            have hlen := length_filter_map_congr db.preferences
              (fun x => if x.id = (applyPrefsData q d).id then
                 { applyPrefsData q d with updated_at := db.now } else x)
              (fun s => decide (s.user_id = u)) hcong
            exact (le_of_eq hlen).trans (hinv u)

/-- Witness for C8: on `prefsCexDB` the lazy get for user 5 returns the
existing record and changes nothing. -/
theorem preferences_single_record_invariant_witness :
    get_user_preferences_svc prefsCexDB 5 = (prefsCexDB, defaultPrefs 0 5 0) :=
  (preferences_single_record_invariant prefsCexDB 5
    { user_id := none }).1 (defaultPrefs 0 5 0) (by decide)

/-- Witness for C9: the listing for user 1 on `sessDB` is a sublist of the
stored sessions (order preserved). -/
theorem sessions_listing_members_and_order_witness :
    List.Sublist (get_user_sessions_svc sessDB 1) sessDB.sessions :=
  (sessions_listing_members_and_order sessDB 1).2
